import Mathlib

/-!
Verification of the metadata-extraction core of python-ihm
(`ihm/metadata.py`): the MRC binary header scanner (`MRCParser`) and the
PDB header parser (`PDBParser`).

Python strings are modelled as `List Char`, binary file contents as
`List Nat` (one `Nat` per byte).  Classes from the modules that only
`metadata.py` imports (`ihm.location`, `ihm.dataset`, `ihm.startmodel`,
`ihm.util`, `ihm.format.CifWriter`) are modelled from the specification,
as marked in their doc comments.  Fallible Python code (exceptions) is
modelled with `Except`.
-/

set_option maxRecDepth 100000

deriving instance DecidableEq for Except

namespace IhmMeta

/-- A Python `str`, as its list of characters. -/
abbrev Str := List Char

/-- Shorthand converting a Lean string literal to `Str`. -/
def cs (s : String) : Str := s.toList

/-- A Python `bytes` value / binary file content, one Nat per byte. -/
abbrev Bytes := List Nat

/-- ASCII bytes of a string literal. -/
def strBytes (s : String) : Bytes := s.toList.map Char.toNat

/-- Python `str` whitespace test, restricted to the ASCII whitespace
characters relevant here (space, tab, newline, carriage return,
vertical tab, form feed). -/
def pyIsSpaceC (c : Char) : Bool :=
  c = ' ' || c = '\t' || c = '\n' || c = '\x0d' || c = '\x0b' || c = '\x0c'

/-- Python `bytes` whitespace test (the same six ASCII codes). -/
def pyIsSpaceB (b : Nat) : Bool :=
  b = 32 || b = 9 || b = 10 || b = 13 || b = 11 || b = 12

/-- ASCII decimal digit test on characters. -/
def isDigitC (c : Char) : Bool := '0' ≤ c && c ≤ '9'

/-- ASCII letter test on characters (regex class `[a-zA-Z]`). -/
def isAlphaC (c : Char) : Bool := ('a' ≤ c && c ≤ 'z') || ('A' ≤ c && c ≤ 'Z')

/-- ASCII alphanumeric test (regex class `[a-zA-Z0-9]`). -/
def isAlnumC (c : Char) : Bool := isAlphaC c || isDigitC c

/-- ASCII decimal digit test on bytes (regex class `\d` in a bytes pattern). -/
def isDigitB (b : Nat) : Bool := 48 ≤ b && b ≤ 57

/-- Python `line.startswith(p)` on character lists. -/
def leadsWith : Str → Str → Bool
  | [], _ => true
  | _ :: _, [] => false
  | p :: ps, c :: rest => p = c && leadsWith ps rest

/-- Python `bytes` prefix test, used by the byte-level pattern search. -/
def bleadsWith : Bytes → Bytes → Bool
  | [], _ => true
  | _ :: _, [] => false
  | p :: ps, c :: rest => p = c && bleadsWith ps rest

/-- Python `s.strip()` on a string (ASCII whitespace). -/
def pyStripC (s : Str) : Str :=
  ((s.dropWhile pyIsSpaceC).reverse.dropWhile pyIsSpaceC).reverse

/-- Python `s.rstrip()` on a string (ASCII whitespace). -/
def pyRStripC (s : Str) : Str :=
  (s.reverse.dropWhile pyIsSpaceC).reverse

/-- Python `b.strip()` on bytes (ASCII whitespace). -/
def pyStripB (b : Bytes) : Bytes :=
  ((b.dropWhile pyIsSpaceB).reverse.dropWhile pyIsSpaceB).reverse

/-- Python `s.split(' ', 1)`: split at the first space only; the result is
a list of one or two pieces (`''.split(' ', 1) == ['']`). -/
def pySplit1 (s : Str) : List Str :=
  let p := s.takeWhile (fun c => c ≠ ' ')
  if p.length = s.length then [s] else [p, s.drop (p.length + 1)]

/-! ### MRC binary header scanner (`MRCParser._get_emdb`)

The Python code seeks to byte offset 220, reads the 4-byte label-count
field, unpacks it once as a big-endian and once as a little-endian signed
32-bit integer (`struct.unpack_from` raises `struct.error` when fewer
than 4 bytes are available, modelled as `Except.error ()`), takes the
minimum of the two, and then reads that many 80-byte label records,
returning the first match of the bytes regex
`EMDATABANK\.org.*(EMD\-\d+)` applied to each whitespace-stripped label.
A Python file read past end-of-file returns a short (possibly empty)
bytes object and advances the position by the number of bytes actually
returned; `readBytes`/`scanLoop` model exactly that. -/

/-- Python `fh.read(n)` after a seek: the bytes of `f` from `pos`,
at most `n` of them (short or empty at end of file). -/
def readBytes (f : Bytes) (pos n : Nat) : Bytes := (f.drop pos).take n

/-- Big-endian unsigned value of a 4-byte field. -/
def beU32 : Bytes → Nat
  | b0 :: b1 :: b2 :: b3 :: _ => ((b0 * 256 + b1) * 256 + b2) * 256 + b3
  | _ => 0

/-- Two's-complement reading of a 32-bit unsigned value
(`struct.unpack` format character `i`). -/
def toS32 (u : Nat) : Int :=
  if u < 2 ^ 31 then (u : Int) else (u : Int) - 2 ^ 32

/-- Signed 32-bit big-endian interpretation (`struct.unpack_from` with
format string consisting of a greater-than sign and `i`). -/
def sInt32be (raw : Bytes) : Int := toS32 (beU32 raw)

/-- Signed 32-bit little-endian interpretation (format string consisting
of a less-than sign and `i`): the bytes in reverse order. -/
def sInt32le (raw : Bytes) : Int := toS32 (beU32 raw.reverse)

/-- The label count used by the scanner: the minimum of the big-endian
and little-endian interpretations of the 4 bytes at offset 220. -/
def labelCount (f : Bytes) : Int :=
  min (sInt32be (readBytes f 220 4)) (sInt32le (readBytes f 220 4))

/-- Literal part `EMDATABANK.org` of the accession pattern (the dot is
escaped in the Python regex, hence literal). -/
def emdatLit : Bytes := strBytes "EMDATABANK.org"

/-- Literal part `EMD-` of the capture group of the accession pattern. -/
def emdMark : Bytes := strBytes "EMD-"

/-- Try the capture group `EMD-\d+` at the head of `l`: requires the
`EMD-` marker followed by at least one digit; greedy `\d+` takes the
maximal digit run. -/
def matchEMDAt (l : Bytes) : Option Bytes :=
  if bleadsWith emdMark l then
    let ds := (l.drop 4).takeWhile isDigitB
    if ds.isEmpty then none else some (emdMark ++ ds)
  else none

/-- Backtracking of the greedy `.*` in `EMDATABANK\.org.*(EMD\-\d+)`:
try the capture group at offset `j`, then `j - 1`, ..., then `0`,
returning the first (that is, rightmost-starting) success. -/
def searchBack (rest : Bytes) : Nat → Option Bytes
  | 0 => matchEMDAt rest
  | j + 1 =>
    match matchEMDAt (rest.drop (j + 1)) with
    | some c => some c
    | none => searchBack rest j

/-- Python `re.search` of the bytes pattern `EMDATABANK\.org.*(EMD\-\d+)`,
returning the text of capture group 1.  Positions are tried left to
right; at a position where the 14-byte literal matches, the greedy `.*`
may consume any run of non-newline bytes, so the capture group is tried
from the end of that run backwards. -/
def searchEmdb : Bytes → Option Bytes
  | [] => none
  | b :: bs =>
    if bleadsWith emdatLit (b :: bs) then
      let rest := (b :: bs).drop 14
      match searchBack rest ((rest.takeWhile (fun x => x ≠ 10)).length) with
      | some c => some c
      | none => searchEmdb bs
    else searchEmdb bs

/-- The label-reading loop of `_get_emdb`: `count` iterations of
`fh.read(80)` from the running file position, each label stripped and
searched; the first match is returned.  The single `fh.read(80)` of the
loop body appears twice below (once for its content, once for the
position advance); the read is pure in this model, so the two
occurrences denote the same bytes. -/
def scanLoop (f : Bytes) : Nat → Nat → Option Bytes
  | _, 0 => none
  | pos, k + 1 =>
    match searchEmdb (pyStripB (readBytes f pos 80)) with
    | some code => some code
    | none => scanLoop f (pos + (readBytes f pos 80).length) k

/-- Model of `MRCParser._get_emdb`: returns the accession bytes of the first
matching label, `Except.ok none` when no label matches, and
`Except.error ()` when the 4-byte count field cannot be unpacked
(`struct.error` on a file shorter than 224 bytes). -/
def mrcGetEmdb (f : Bytes) : Except Unit (Option Bytes) :=
  if (readBytes f 220 4).length = 4 then
    Except.ok (scanLoop f 224 (labelCount f).toNat)
  else
    Except.error ()

/-- The `k`-th 80-byte label record of a density-map file, counted from
the label area that begins at byte offset 224. -/
def labelRecord (f : Bytes) (k : Nat) : Bytes := (f.drop (224 + 80 * k)).take 80

/-- Claim-side scan: try label records `k`, `k + 1`, ... for `n`
records, returning the accession of the first label matching the
pattern. -/
def firstMatchFrom (f : Bytes) : Nat → Nat → Option Bytes
  | _, 0 => none
  | k, n + 1 =>
    match searchEmdb (pyStripB (labelRecord f k)) with
    | some c => some c
    | none => firstMatchFrom f (k + 1) n

/-! ### Location/Dataset data model

Modelled from the spec: `ihm.location` and `ihm.dataset` are not part of
the sources under verification; the spec describes a Location as either a
database record (`database_name`, `accession`, optional `version`,
optional `details`) or a file (`path`, optional repository identified by
a DOI, optional `details`), and a Dataset as a kind
(experimental-structure / density-map / comparative-model), a location
and an ordered, append-only parent list.  Constructors below keep the
source's class names; fields are plain data, and Python attribute
assignment (as in `local_file.details = ...`) is modelled by building
the Location with the assigned value. -/

/-- Modelled from the spec: the three Dataset kinds. -/
inductive DataType where
  | experimental
  | densityMap
  | comparativeModel
deriving DecidableEq

/-- Modelled from the spec: a repository identified by a DOI. -/
structure Repo where
  doi : Str
deriving DecidableEq

/-- Modelled from the spec: a Location is a database record or a file. -/
inductive Location where
  | db (dbName accession : Str) (version : Option Str) (details : Option Str)
  | file (path : Str) (repo : Option Repo) (details : Option Str)
deriving DecidableEq

/-- The `details` field common to both Location shapes. -/
def Location.details : Location → Option Str
  | .db _ _ _ d => d
  | .file _ _ d => d

/-- The accession of a database Location (`none` for a file Location). -/
def Location.accession : Location → Option Str
  | .db _ a _ _ => some a
  | .file _ _ _ => none

/-- The path of a file Location (`none` for a database Location). -/
def Location.path : Location → Option Str
  | .db _ _ _ _ => none
  | .file p _ _ => some p

/-- Model of `ihm.location.PDBLocation`: a PDB database record. -/
def PDBLocation (accession : Str) (version details : Option Str) : Location :=
  .db (cs "PDB") accession version details

/-- Model of `ihm.location.EMDBLocation`: an EMDB database record. -/
def EMDBLocation (accession : Str) (version details : Option Str) : Location :=
  .db (cs "EMDB") accession version details

/-- Model of `ihm.location.InputFileLocation`: a file, local or in a repository. -/
def InputFileLocation (path : Str) (repo : Option Repo) (details : Option Str) : Location :=
  .file path repo details

/-- Modelled from the spec: a provenance-graph node. -/
inductive Dataset where
  | mk (dtype : DataType) (loc : Location) (parents : List Dataset)

/-- The kind of a Dataset. -/
def Dataset.dtype : Dataset → DataType
  | .mk t _ _ => t

/-- The location of a Dataset. -/
def Dataset.loc : Dataset → Location
  | .mk _ l _ => l

/-- The parent list of a Dataset. -/
def Dataset.parents : Dataset → List Dataset
  | .mk _ _ p => p

/-- Append parents (Python `d.parents.append(...)`, in order). -/
def Dataset.addParents : Dataset → List Dataset → Dataset
  | .mk t l p, q => .mk t l (p ++ q)

/-- Model of `ihm.dataset.PDBDataset`: an experimental-structure dataset. -/
def PDBDataset (l : Location) : Dataset := .mk .experimental l []

/-- Model of `ihm.dataset.EMDensityDataset`: a density-map dataset. -/
def EMDensityDataset (l : Location) : Dataset := .mk .densityMap l []

/-- Model of `ihm.dataset.ComparativeModelDataset`. -/
def ComparativeModelDataset (l : Location) : Dataset := .mk .comparativeModel l []

/-- Modelled from the spec: `ihm.startmodel.PDBHelix` keeps the raw
HELIX record line (one raw metadata record). -/
structure PDBHelix where
  line : Str
deriving DecidableEq

/-- Value stored in the `software` dict of the result: Python stores
either a string (the `CifWriter.unknown` marker) or a list of strings
(the result of `str.split`). -/
inductive SWVal where
  | pyStr (s : Str)
  | pyList (l : List Str)
deriving DecidableEq

/-- Modelled from the spec: `ihm.format.CifWriter.unknown`, the marker
for an unknown value; its concrete glyph is outside the sources under
verification and is represented as a question mark. -/
def cifUnknown : SWVal := .pyStr (cs "?")

/-- Python exceptions that `PDBParser` code can raise: `ValueError`
from `int()`/`float()` conversions and `KeyError` from the
`template_path_map[...]` lookup. -/
inductive PyErr where
  | valueError
  | keyError (k : Str)
deriving DecidableEq

/-- The raised exception of a computation, if any (used to state
results about the error component without deciding equality of the
success payload). -/
def errOf {α : Type} : Except PyErr α → Option PyErr
  | .error e => some e
  | .ok _ => none

/-- Model of `ihm.startmodel.Template`, with the source's field names.
`sequence_identity` keeps the captured text of the percentage (its
`float` conversion is validated but the numeric value is not used by
any of the properties verified here). -/
structure Template where
  dataset : Dataset
  asym_id : Str
  seq_id_range : Int × Int
  template_seq_id_range : Int × Int
  sequence_identity : Str
  alignment_file : Option Location

/-- The result dict of `PDBParser.parse_file`. -/
structure PDBResult where
  dataset : Dataset
  templates : List Template
  software : List (Str × SWVal)
  metadata : List PDBHelix

/-! ### The three remark grammars of `PDBParser._get_templates`

The Python code anchors three regexes with `re.match`:

* `REMARK   6 ALIGNMENT: (\S+)`
* `REMARK   6 TEMPLATE PATH (\S+) (\S+)`
* `REMARK   6 TEMPLATE: (\S+) (\S+):(\S+) \- (\S+):\S+ MODELS (\S+):\S+ \- (\S+):\S+ AT (\S+)%`

These are sequences of literals and greedy `\S+` tokens.  A `\S+` whose
following pattern element begins with a space must consume the entire
maximal run of non-whitespace characters (it cannot consume the space,
and stopping earlier would put a non-space where the space is required).
In `(\S+):(\S+)` followed by a space, backtracking of the first greedy
group picks the rightmost colon of the run that leaves both sides
non-empty; in `(\S+)%` at the end of the pattern it picks the rightmost
percent sign of the run with a non-empty group before it. -/

/-- The maximal run of non-whitespace characters at the head of `s`
(what a greedy `\S+` consumes when a space-initial element follows). -/
def nonspaceRun (s : Str) : Str := s.takeWhile (fun c => !pyIsSpaceC c)

/-- Match a literal pattern piece, returning the rest of the line. -/
def litTok (p s : Str) : Option Str :=
  if leadsWith p s then some (s.drop p.length) else none

/-- Match `(\S+)` followed by a space-initial pattern element: the
non-empty maximal non-whitespace run, and the rest of the line. -/
def spaceTok (s : Str) : Option (Str × Str) :=
  let r := nonspaceRun s
  if r.isEmpty then none else some (r, s.drop r.length)

/-- Rightmost index `k` with `1 ≤ k ≤ bound` such that `r[k] = c`,
searching from `bound` downwards (backtracking order of a greedy
group). -/
def lastIdxBack (c : Char) (r : Str) : Nat → Option Nat
  | 0 => none
  | k + 1 => if r.getD (k + 1) ' ' = c then some (k + 1) else lastIdxBack c r k

/-- Match `(\S+):(\S+)` followed by a space-initial element: split the
maximal non-whitespace run at its rightmost colon having non-empty text
on both sides.  Returns (left group, right group, rest of line). -/
def colonToken (s : Str) : Option (Str × Str × Str) :=
  let r := nonspaceRun s
  if r.length < 3 then none
  else
    match lastIdxBack ':' r (r.length - 2) with
    | some k => some (r.take k, r.drop (k + 1), s.drop r.length)
    | none => none

/-- Match `(\S+)%` at the end of the pattern: the group is the text of
the maximal non-whitespace run before its rightmost percent sign, which
must be non-empty. -/
def percentToken (s : Str) : Option Str :=
  let r := nonspaceRun s
  if r.length < 2 then none
  else
    match lastIdxBack '%' r (r.length - 1) with
    | some k => some (r.take k)
    | none => none

/-- Model of `re.match` of `REMARK   6 ALIGNMENT: (\S+)`. -/
def matchAln (line : Str) : Option Str := do
  let s ← litTok (cs "REMARK   6 ALIGNMENT: ") line
  let (g, _) ← spaceTok s
  pure g

/-- Model of `re.match` of `REMARK   6 TEMPLATE PATH (\S+) (\S+)`. -/
def matchTmpPath (line : Str) : Option (Str × Str) := do
  let s ← litTok (cs "REMARK   6 TEMPLATE PATH ") line
  let (g1, s) ← spaceTok s
  let s ← litTok (cs " ") s
  let (g2, _) ← spaceTok s
  pure (g1, g2)

/-- The seven capture groups of the per-template statistics regex. -/
structure TmpMatch where
  g1 : Str
  g2 : Str
  g3 : Str
  g4 : Str
  g5 : Str
  g6 : Str
  g7 : Str
deriving DecidableEq

/-- Model of `re.match` of the per-template statistics regex (`tmpre` in the
source). -/
def matchTmp (line : Str) : Option TmpMatch := do
  let s ← litTok (cs "REMARK   6 TEMPLATE: ") line
  let (g1, s) ← spaceTok s
  let s ← litTok (cs " ") s
  let (g2, g3, s) ← colonToken s
  let s ← litTok (cs " - ") s
  let (g4, _, s) ← colonToken s
  let s ← litTok (cs " MODELS ") s
  let (g5, _, s) ← colonToken s
  let s ← litTok (cs " - ") s
  let (g6, _, s) ← colonToken s
  let s ← litTok (cs " AT ") s
  let g7 ← percentToken s
  pure ⟨g1, g2, g3, g4, g5, g6, g7⟩

/-! ### Template path map, numeric conversions and template handling -/

/-- Python dict assignment `d[k] = v` on an insertion-ordered
association list (overwrite in place or append). -/
def dictSet : List (Str × Str) → Str → Str → List (Str × Str)
  | [], k, v => [(k, v)]
  | (k₁, v₁) :: rest, k, v =>
    if k₁ = k then (k, v) :: rest else (k₁, v₁) :: dictSet rest k v

/-- Python dict lookup `d[k]`, `none` when the key is absent. -/
def dictGet : List (Str × Str) → Str → Option Str
  | [], _ => none
  | (k₁, v₁) :: rest, k => if k₁ = k then some v₁ else dictGet rest k

/-- Modelled from the spec: `ihm.util._get_relative_path` resolves a
path captured in a remark relative to the directory of the input file
(the directory part of `reference` joined with `path`; resolution of an
already-absolute `path` is not exercised by the verified properties). -/
def getRelativePath (reference path : Str) : Str :=
  let tail := reference.reverse.dropWhile (fun c => c ≠ '/')
  if tail.isEmpty then path else (tail.drop 1).reverse ++ [ '/' ] ++ path

/-- Python `int(s)` on the strings produced here: optional surrounding
whitespace, an optional sign and a non-empty digit run; anything else
raises `ValueError`.  (Python's underscore digit separators and
non-ASCII digits are not modelled.) -/
def pyInt (s : Str) : Except PyErr Int :=
  let t := pyStripC s
  match t with
  | '+' :: ds =>
    if ds ≠ [] ∧ ds.all isDigitC then
      Except.ok ((ds.foldl (fun a c => a * 10 + (c.toNat - 48)) 0 : Nat) : Int)
    else Except.error .valueError
  | '-' :: ds =>
    if ds ≠ [] ∧ ds.all isDigitC then
      Except.ok (-((ds.foldl (fun a c => a * 10 + (c.toNat - 48)) 0 : Nat) : Int))
    else Except.error .valueError
  | ds =>
    if ds ≠ [] ∧ ds.all isDigitC then
      Except.ok ((ds.foldl (fun a c => a * 10 + (c.toNat - 48)) 0 : Nat) : Int)
    else Except.error .valueError

/-- Whether Python `float(s)` succeeds, for the decimal/exponent forms:
optional surrounding whitespace and sign, then `digits [. digits]` or
`. digits`, then an optional exponent.  (The `inf`/`nan` words and
underscore separators are not modelled.) -/
def pyFloatOk (s : Str) : Bool :=
  let t := pyStripC s
  let t := match t with
    | '+' :: r => r
    | '-' :: r => r
    | r => r
  let ds1 := t.takeWhile isDigitC
  let rest := t.drop ds1.length
  let mant :=
    match rest with
    | '.' :: r2 =>
      let ds2 := r2.takeWhile isDigitC
      (!(ds1.isEmpty && ds2.isEmpty), r2.drop ds2.length)
    | r2 => (!ds1.isEmpty, r2)
  if !mant.1 then false
  else
    match mant.2 with
    | [] => true
    | e :: r3 =>
      if e = 'e' ∨ e = 'E' then
        let r4 := match r3 with
          | '+' :: q => q
          | '-' :: q => q
          | q => q
        !r4.isEmpty && r4.all isDigitC
      else false

/-- Python `float(s)` as used in `_handle_template`: validates the text
(raising `ValueError` otherwise) and keeps the token. -/
def pyFloat (s : Str) : Except PyErr Str :=
  if pyFloatOk s then Except.ok s else Except.error .valueError

/-- After the optional `_` of the template-code shape regex, `.*$` must
match: no newline except possibly a single trailing one. -/
def dotStarEndOk (t : Str) : Bool :=
  let r := t.drop ((t.takeWhile (fun c => c ≠ '\n')).length)
  r.isEmpty || r = [ '\n' ]

/-- The part of the template-code shape after the first five
characters: empty, a bare trailing newline, or an underscore followed
by `.*$`. -/
def shapeTailOk : Str → Bool
  | [] => true
  | [ '\n' ] => true
  | '_' :: t => dotStarEndOk t
  | _ => false

/-- Model of `re.match` of the anchored template-code shape regex
`(\d[a-zA-Z0-9]{3})[a-zA-Z](_.*)?$` as a Boolean: a digit, three
alphanumerics, a letter, then an optional underscore suffix. -/
def shapeMatch (code : Str) : Bool :=
  match code with
  | c0 :: c1 :: c2 :: c3 :: c4 :: rest =>
    isDigitC c0 && isAlnumC c1 && isAlnumC c2 && isAlnumC c3 && isAlphaC c4 &&
      shapeTailOk rest
  | _ => false

/-- The code-resolution step of `PDBParser._handle_template`: a code
matching the shape regex becomes a PDB database record with the
upper-cased 4-character accession (the table is not consulted);
otherwise the code is looked up in the `TEMPLATE PATH` map, raising
`KeyError` when absent. -/
def resolveTemplateCode (pathMap : List (Str × Str)) (code : Str) :
    Except PyErr Location :=
  if shapeMatch code then
    Except.ok (PDBLocation ((code.take 4).map Char.toUpper) none none)
  else
    match dictGet pathMap code with
    | some fname =>
      Except.ok (InputFileLocation fname none
        (some (cs "Template for comparative modeling")))
    | none => Except.error (PyErr.keyError code)

/-- Model of `PDBParser._handle_template`: convert the captured ranges and
identity (in the source's evaluation order), resolve the template code
to a Location, and build the Template. -/
def handleTemplate (pathMap : List (Str × Str)) (alnfile : Option Location)
    (m : TmpMatch) : Except PyErr Template :=
  match pyInt m.g2 with
  | .error e => .error e
  | .ok t1 =>
  match pyInt m.g4 with
  | .error e => .error e
  | .ok t2 =>
  match pyInt m.g5 with
  | .error e => .error e
  | .ok s1 =>
  match pyInt m.g6 with
  | .error e => .error e
  | .ok s2 =>
  match pyFloat m.g7 with
  | .error e => .error e
  | .ok idv =>
  match resolveTemplateCode pathMap m.g1 with
  | .error e => .error e
  | .ok l =>
    Except.ok
      { dataset := PDBDataset l
        asym_id := m.g3
        seq_id_range := (s1, s2)
        template_seq_id_range := (t1, t2)
        sequence_identity := idv
        alignment_file := alnfile }

/-! ### Header scan and template recovery -/

/-- The accumulators of the header scan of `_get_templates`. -/
structure ScanState where
  pathMap : List (Str × Str)
  alnfile : Option Location
  stats : List TmpMatch

/-- One header line of `_get_templates`: each of the three regexes is
tried in the source's order, updating the path map, the alignment
location, and the queued statistics matches. -/
def stepLine (pdbname : Str) (st : ScanState) (line : Str) : ScanState :=
  let st1 :=
    match matchTmpPath line with
    | some (c, p) => { st with pathMap := dictSet st.pathMap c (getRelativePath pdbname p) }
    | none => st
  let st2 :=
    match matchAln line with
    | some g =>
      { st1 with alnfile := some (InputFileLocation (getRelativePath pdbname g) none
          (some (cs "Alignment for starting comparative model"))) }
    | none => st1
  match matchTmp line with
  | some m => { st2 with stats := st2.stats ++ [m] }
  | none => st2

/-- The header-scanning loop of `_get_templates`: read lines until the
first line starting with `ATOM`. -/
def scanHeader (pdbname : Str) : List Str → ScanState → ScanState
  | [], st => st
  | l :: ls, st =>
    if leadsWith (cs "ATOM") l then st
    else scanHeader pdbname ls (stepLine pdbname st l)

/-- The Python list comprehension over the queued matches: left to
right, the first exception propagating. -/
def mapE {α β : Type} (f : α → Except PyErr β) : List α → Except PyErr (List β)
  | [] => .ok []
  | a :: as =>
    match f a with
    | .error e => .error e
    | .ok b =>
      match mapE f as with
      | .error e => .error e
      | .ok bs => .ok (b :: bs)

/-- Python tuple comparison on the `(start, end)` residue ranges. -/
def tupLe (a b : Int × Int) : Bool :=
  decide (a.1 < b.1 ∨ (a.1 = b.1 ∧ a.2 ≤ b.2))

/-- The key order of `sorted(templates, key=attrgetter('seq_id_range'))`. -/
def tmplLe (x y : Template) : Bool := tupLe x.seq_id_range y.seq_id_range

/-- Model of `PDBParser._get_templates`: scan the header, resolve each queued
statistics match, and return the templates sorted by `seq_id_range`
(Python's stable sort, modelled by the stable `List.mergeSort`)
together with the datasets appended as parents of the target dataset,
in discovery order. -/
def getTemplates (lines : List Str) (pdbname : Str) :
    Except PyErr (List Template × List Dataset) :=
  let st := scanHeader pdbname lines ⟨[], none, []⟩
  match mapE (handleTemplate st.pathMap st.alnfile) st.stats with
  | .error e => .error e
  | .ok ts => .ok (ts.mergeSort tmplLe, ts.map (fun t => t.dataset))

/-! ### `PDBParser.parse_file` and its per-dialect helpers

A text file is modelled as the list of lines that Python's line
iteration yields (each line keeping its trailing newline, except
possibly the last).  `parse_file` reads the first line, dispatches on
its literal prefix, and the comparative-model dialects re-read the whole
file in `_get_templates`. -/

/-- The first line of the file (the empty string for an empty file,
as `fh.readline()` returns). -/
def firstLineOf (lines : List Str) : Str := lines.headD []

/-- Model of `PDBParser._parse_details`: concatenate the `TITLE` records
(columns 10 onward, right-stripped), stopping at the first line that
starts with `ATOM`; the empty string when there are none. -/
def parseDetails : List Str → Str
  | [] => []
  | l :: ls =>
    if leadsWith (cs "TITLE") l then pyRStripC (l.drop 10) ++ parseDetails ls
    else if leadsWith (cs "ATOM") l then []
    else parseDetails ls

/-- The record loop of `PDBParser._parse_pdb_records`: accumulate
`TITLE` text and `HELIX` records over all remaining lines (no early
stop). -/
def pdbRecordsAux : List Str → Str → List PDBHelix → Str × List PDBHelix
  | [], det, md => (det, md)
  | l :: ls, det, md =>
    if leadsWith (cs "TITLE") l then pdbRecordsAux ls (det ++ pyRStripC (l.drop 10)) md
    else if leadsWith (cs "HELIX") l then pdbRecordsAux ls det (md ++ [⟨l⟩])
    else pdbRecordsAux ls det md

/-- Model of `PDBParser._parse_pdb_records`: the version (columns 50–58 of the
first line, stripped), the concatenated title text normalized to `none`
when empty, and the `HELIX` records. -/
def parsePdbRecords (first : Str) (rest : List Str) :
    Str × Option Str × List PDBHelix :=
  let dm := pdbRecordsAux rest [] []
  (pyStripC ((first.drop 50).take 9),
   if dm.1.isEmpty then none else some dm.1, dm.2)

/-- Model of `PDBParser._handle_comparative_model`: wrap the local file as a
comparative-model dataset, run template recovery against it (its
exceptions propagate), and append the template datasets as parents in
discovery order. -/
def handleComparative (lines : List Str) (filename : Str)
    (localFile : Location) (software : List (Str × SWVal)) :
    Except PyErr PDBResult :=
  match getTemplates lines filename with
  | .error e => .error e
  | .ok tsp =>
    .ok { dataset := (ComparativeModelDataset localFile).addParents tsp.2
          templates := tsp.1
          software := software
          metadata := [] }

/-- Model of `PDBParser.parse_file`: dispatch on the literal prefix of the first
line, first match wins; no match is handled as a comparative model. -/
def parsePdbFile (lines : List Str) (filename : Str) : Except PyErr PDBResult :=
  let first := firstLineOf lines
  let rest := lines.drop 1
  let localFile := InputFileLocation filename none (some (cs "Starting model structure"))
  if leadsWith (cs "HEADER") first then
    let vdm := parsePdbRecords first rest
    .ok { dataset := PDBDataset (PDBLocation (pyStripC ((first.drop 62).take 4))
            (some vdm.1) vdm.2.1)
          templates := []
          software := []
          metadata := vdm.2.2 }
  else if leadsWith (cs "EXPDTA    DERIVED FROM PDB:") first then
    let lf := InputFileLocation filename none (some (parseDetails rest))
    let parent := PDBDataset (PDBLocation (pyStripC (first.drop 27)) none none)
    .ok { dataset := (PDBDataset lf).addParents [parent]
          templates := []
          software := []
          metadata := [] }
  else if leadsWith (cs "EXPDTA    DERIVED FROM COMPARATIVE MODEL, DOI:") first then
    let lf := InputFileLocation filename none (some (parseDetails rest))
    let orig := InputFileLocation (cs ".") (some ⟨pyStripC (first.drop 46)⟩)
      (some (cs "Starting comparative model structure"))
    .ok { dataset := (ComparativeModelDataset lf).addParents
            [ComparativeModelDataset orig]
          templates := []
          software := []
          metadata := [] }
  else if leadsWith (cs "EXPDTA    THEORETICAL MODEL, MODELLER") first then
    handleComparative lines filename localFile
      [(cs "modeller", SWVal.pyList (pySplit1 (first.drop 38)))]
  else if leadsWith (cs "REMARK  99  Chain ID :") first then
    handleComparative lines filename localFile [(cs "phyre2", cifUnknown)]
  else
    handleComparative lines filename localFile []

/-! ### `MRCParser.parse_file`

`MRCParser.parse_file` calls `_get_emdb` on the file and, when a code
was found, immediately queries the EMDB web API through
`_get_emdb_info` for the entry's release date and title.  That network
collaborator is modelled as an explicit oracle argument
`net : Bytes → Str × Str`, keyed by the accession code, so that the
dependence of the result on the network response is visible. -/

/-- Model of `MRCParser.parse_file` with the EMDB lookup service as an explicit
oracle.  The `struct.error` of `_get_emdb` propagates. -/
def mrcParseFile (net : Bytes → Str × Str) (filename : Str) (f : Bytes) :
    Except Unit Dataset :=
  match mrcGetEmdb f with
  | .error e => .error e
  | .ok none =>
    .ok (EMDensityDataset (InputFileLocation filename none
      (some (cs "Electron microscopy density map"))))
  | .ok (some code) =>
    let vd := net code
    .ok (EMDensityDataset (EMDBLocation (code.map Char.ofNat) (some vd.1)
      (some (if vd.2.isEmpty then cs "Electron microscopy density map" else vd.2))))

/-! ### Predicates used to state the verified properties -/

/-- The claimed details invariant: `details` absent or non-empty. -/
def detailsOkB : Option Str → Bool
  | none => true
  | some s => !s.isEmpty

/-- All numeric fields of a statistics match convert successfully
(the four range endpoints as `int`, the identity as `float`). -/
def statNumOk (m : TmpMatch) : Bool :=
  (pyInt m.g2).isOk && (pyInt m.g4).isOk && (pyInt m.g5).isOk &&
    (pyInt m.g6).isOk && pyFloatOk m.g7

/-- A template code resolves: it matches the canonical-accession shape
or is present in the search-path table. -/
def resolvable (pm : List (Str × Str)) (m : TmpMatch) : Bool :=
  shapeMatch m.g1 || (dictGet pm m.g1).isSome

/-! ### Concrete scenario inputs for witnesses and counterexamples -/

/-- Witness file for C1: a 224-byte header whose count field holds 1 in
big-endian (the little-endian reading is 2^24, so the minimum is 1)
followed by one matching label record. -/
def mrcWlabel : Bytes :=
  List.replicate 220 0 ++ [0, 0, 0, 1] ++
    (strBytes "EMDATABANK.org EMD-123" ++ List.replicate 58 32)

/-- File for the C4 counterexample: count field 11 (little-endian; the
big-endian reading is larger), ten label records of `X` bytes filling
the 800-byte label area, then one extra 80-byte record after the label
area containing the accession pattern. -/
def cexPastA : Bytes :=
  List.replicate 220 0 ++ [11, 0, 0, 0] ++ List.replicate 800 88 ++
    (strBytes "EMDATABANK.org EMD-7" ++ List.replicate 60 32)

/-- The same file truncated right after the 800-byte label area. -/
def cexPastB : Bytes := cexPastA.take 1024

/-- An all-zero 224-byte header (count 0, no label data). -/
def mrcW224 : Bytes := List.replicate 224 0

/-- A 224-byte header whose count field reads as -1 in both byte
orders. -/
def mrcWneg : Bytes := List.replicate 220 0 ++ [255, 255, 255, 255]

/-- A concrete EMDB lookup service response. -/
def netOne : Bytes → Str × Str := fun _ => (cs "2020-01-01", cs "map one")

/-- A second service response differing only in the title. -/
def netTwo : Bytes → Str × Str := fun _ => (cs "2020-01-01", cs "map two")

/-- A density-map file embedding the accession `EMD-5`. -/
def c9file : Bytes :=
  List.replicate 220 0 ++ [0, 0, 0, 1] ++
    (strBytes "EMDATABANK.org EMD-5" ++ List.replicate 60 32)

/-- The two lines of the spec's official-record scenario (as the line
iteration yields them, with terminators). -/
def c5lines : List Str :=
  [cs "HEADER    TEST STRUCTURE                         12-JAN-20   1ABC\n",
   cs "TITLE     A SAMPLE\n"]

/-- A derived-from-database-entry header with no title lines. -/
def c6lines : List Str := [cs "EXPDTA    DERIVED FROM PDB: 1XYZ\n"]

/-- A derived-from-comparative-model header with no title lines. -/
def c6doilines : List Str :=
  [cs "EXPDTA    DERIVED FROM COMPARATIVE MODEL, DOI: 10.1000/xyz\n"]

/-- A MODELLER-dialect file. -/
def c7mod : List Str := [cs "EXPDTA    THEORETICAL MODEL, MODELLER 9.1\n"]

/-- A Phyre2-dialect file. -/
def c7phy : List Str := [cs "REMARK  99  Chain ID : A\n"]

/-- A header with one statistics record whose code matches the
canonical shape but whose template range start is the non-numeric
text `aa`. -/
def c2cexlines : List Str :=
  [cs "REMARK   6 TEMPLATE: 1abcA aa:A - 20:A MODELS 5:A - 15:A AT 45.0%\n"]

/-- Two statistics records, both resolvable and numeric, given in
reverse target order. -/
def c2wlines : List Str :=
  [cs "REMARK   6 TEMPLATE: 1abcA 9:A - 20:A MODELS 30:A - 40:A AT 45.0%\n",
   cs "REMARK   6 TEMPLATE: 2defB 1:B - 10:B MODELS 5:B - 15:B AT 30.0%\n"]

/-- One statistics record with an unresolvable code and non-numeric
range text. -/
def c3cexlines : List Str :=
  [cs "REMARK   6 TEMPLATE: tmplX aa:A - 20:A MODELS 5:A - 15:A AT 45.0%\n"]

/-- A statistics match with a shape-matching code. -/
def m8a : TmpMatch :=
  ⟨cs "1xyzA", cs "10", cs "A", cs "120", cs "5", cs "115", cs "45.0"⟩

/-- The same match with a non-shape code that is in the table. -/
def m8b : TmpMatch :=
  ⟨cs "codeX", cs "10", cs "A", cs "120", cs "5", cs "115", cs "45.0"⟩

/-- A table containing both codes (the shape-matching one must be
ignored). -/
def pm8 : List (Str × Str) :=
  [(cs "1xyzA", cs "dir/f.pdb"), (cs "codeX", cs "dir/f.pdb")]

/-- Header lines before the coordinate record. -/
def c10l1 : List Str := [cs "TITLE     ONE\n"]

/-- Lines after the coordinate record. -/
def c10l2 : List Str := [cs "TITLE     TWO\n", cs "HELIX  stuff\n"]

/-- A coordinate record line. -/
def c10atom : Str := cs "ATOM      1\n"

/-! ## Shared helper lemmas -/

/-- Dropping at `min p (length)` is the same as dropping at `p`. -/
theorem drop_min_eq (f : Bytes) (p : Nat) :
    f.drop (min p f.length) = f.drop p := by
  rcases Nat.le_total p f.length with h | h
  · rw [Nat.min_eq_left h]
  · rw [Nat.min_eq_right h, List.drop_eq_nil_of_le h,
      List.drop_eq_nil_of_le (Nat.le_refl _)]

/-- The reading loop agrees with the position-indexed claim-side scan:
starting the loop at the clamped position of label `k` scans labels
`k`, `k + 1`, ... -/
theorem scanLoop_spec (f : Bytes) : ∀ (n k : Nat),
    scanLoop f (min (224 + 80 * k) f.length) n = firstMatchFrom f k n := by
  intro n
  induction n with
  | zero => intro k; rfl
  | succ n ih =>
    intro k
    have hchunk : readBytes f (min (224 + 80 * k) f.length) 80 = labelRecord f k := by
      simp only [readBytes, labelRecord, drop_min_eq]
    have hlen : (labelRecord f k).length = min 80 (f.length - (224 + 80 * k)) := by
      simp [labelRecord]
    simp only [scanLoop, firstMatchFrom, hchunk]
    cases hsearch : searchEmdb (pyStripB (labelRecord f k)) with
    | some c => rfl
    | none =>
      have hpos : min (224 + 80 * k) f.length + (labelRecord f k).length
          = min (224 + 80 * (k + 1)) f.length := by
        rw [hlen]; omega
      rw [hpos]
      exact ih (k + 1)

/-- Once the position is at or past end of file every read is empty and
the loop finds nothing. -/
theorem scanLoop_none (f : Bytes) : ∀ (n pos : Nat), f.length ≤ pos →
    scanLoop f pos n = none := by
  intro n
  induction n with
  | zero => intro pos _; rfl
  | succ n ih =>
    intro pos h
    have hchunk : readBytes f pos 80 = [] := by
      simp [readBytes, List.drop_eq_nil_of_le h]
    have hempty : searchEmdb (pyStripB ([] : Bytes)) = none := rfl
    simp only [scanLoop, hchunk, hempty, List.length_nil, Nat.add_zero]
    exact ih pos h

/-- When the count field is readable, `_get_emdb` runs the scan loop. -/
theorem mrcGetEmdb_ok (f : Bytes) (h : 224 ≤ f.length) :
    mrcGetEmdb f = .ok (scanLoop f 224 (labelCount f).toNat) := by
  have hraw : (readBytes f 220 4).length = 4 := by
    simp [readBytes]; omega
  simp [mrcGetEmdb, hraw]

/-! ## C1 — the label-count heuristic and label iteration

Claim C1: the scanner reads the 4-byte field at offset 220, interprets
it as big-endian and little-endian signed 32-bit integers, takes the
smaller as the label count, iterates exactly that many 80-byte label
records, and returns the accession of the first matching label (absence
when none matches).  Stated for density-map files long enough to hold
the count field and whose resulting count is non-negative (the
negative/oversized cases are the subject of C4). -/

/-- C1: for a file holding the count field, with a non-negative
minimum-of-both-endians count, `_get_emdb` returns exactly the scan of
that many consecutive 80-byte label records from offset 224, first
match wins. -/
theorem mrc_label_count_scan (f : Bytes) (hlen : 224 ≤ f.length)
    (hcnt : 0 ≤ min (sInt32be (readBytes f 220 4)) (sInt32le (readBytes f 220 4))) :
    mrcGetEmdb f =
      .ok (firstMatchFrom f 0
        (min (sInt32be (readBytes f 220 4)) (sInt32le (readBytes f 220 4))).toNat) := by
  rw [mrcGetEmdb_ok f hlen]
  have hs := scanLoop_spec f (labelCount f).toNat 0
  rw [show min (224 + 80 * 0) f.length = 224 by omega] at hs
  rw [hs]
  rfl

/-- Witness for C1 at a concrete one-label file: the hypotheses hold and
the scan finds `EMD-123`. -/
theorem mrc_label_count_scan_witness :
    224 ≤ mrcWlabel.length ∧
    0 ≤ min (sInt32be (readBytes mrcWlabel 220 4)) (sInt32le (readBytes mrcWlabel 220 4)) ∧
    mrcGetEmdb mrcWlabel =
      .ok (firstMatchFrom mrcWlabel 0
        (min (sInt32be (readBytes mrcWlabel 220 4)) (sInt32le (readBytes mrcWlabel 220 4))).toNat) ∧
    firstMatchFrom mrcWlabel 0
        (min (sInt32be (readBytes mrcWlabel 220 4)) (sInt32le (readBytes mrcWlabel 220 4))).toNat
      = some (strBytes "EMD-123") :=
  ⟨by decide, by decide, mrc_label_count_scan mrcWlabel (by decide) (by decide), by decide⟩

/-! ## C4 — behavior on negative or oversized counts

Claim C4 says the scanner clamps iteration to the label records
actually available and never reads past the label area, and that read
failures yield "no code found" rather than an error.  The code does
neither: iteration is not clamped (labels are read from wherever in the
file the running position points, including past the 800-byte label
area), and a file too short for the 4-byte count field raises a
`struct.error`.  What does hold: negative counts iterate zero labels,
and reads past end of file return empty bytes that never match, so an
oversized count on a file with no data past the header degrades to "no
code found". -/

/-- Counterexample to C4 as stated: two files that agree on the whole
header and label area (their first 1024 bytes) but differ afterwards
give different scan results — the scanner read past the label area and
returned a code found there, instead of clamping iteration to the ten
available label records. -/
theorem mrc_scanner_overrun_cex :
    cexPastA.take 1024 = cexPastB.take 1024 ∧
    mrcGetEmdb cexPastA = .ok (some (strBytes "EMD-7")) ∧
    mrcGetEmdb cexPastB = .ok none := by
  refine ⟨by decide, by decide, by decide⟩

/-- C4 as amended: (1) whenever the count field is readable the scan
never raises; (2) a negative count iterates zero labels; (3) with no
bytes past the header, any count degrades to "no code found" (reads
past end of file are empty and never match); (4) a file too short for
the count field raises the unpack error instead of returning "no code
found". -/
theorem mrc_scanner_overrun :
    (∀ f : Bytes, 224 ≤ f.length → ∃ r, mrcGetEmdb f = .ok r) ∧
    (∀ f : Bytes, 224 ≤ f.length → labelCount f < 0 → mrcGetEmdb f = .ok none) ∧
    (∀ f : Bytes, f.length = 224 → mrcGetEmdb f = .ok none) ∧
    (∀ f : Bytes, f.length < 224 → mrcGetEmdb f = .error ()) := by
  refine ⟨fun f h => ⟨_, mrcGetEmdb_ok f h⟩, fun f h hneg => ?_, fun f h => ?_, fun f h => ?_⟩
  · rw [mrcGetEmdb_ok f h, Int.toNat_of_nonpos (Int.le_of_lt hneg)]
    rfl
  · rw [mrcGetEmdb_ok f (Nat.le_of_eq h.symm),
      scanLoop_none f _ 224 (Nat.le_of_eq h)]
  · have hraw : (readBytes f 220 4).length ≠ 4 := by
      simp [readBytes]; omega
    simp [mrcGetEmdb, hraw]

/-- Witness for the amended C4 at concrete files: a readable header
never errors, a negative count gives "no code found", a header-only
file gives "no code found", and the empty file raises. -/
theorem mrc_scanner_overrun_witness :
    (∃ r, mrcGetEmdb mrcW224 = .ok r) ∧
    mrcGetEmdb mrcWneg = .ok none ∧
    mrcGetEmdb mrcW224 = .ok none ∧
    mrcGetEmdb [] = .error () :=
  ⟨mrc_scanner_overrun.1 mrcW224 (by decide),
   mrc_scanner_overrun.2.1 mrcWneg (by decide) (by decide),
   mrc_scanner_overrun.2.2.1 mrcW224 (by decide),
   mrc_scanner_overrun.2.2.2 [] (by decide)⟩

/-! ## C9 — determinism and network retrieval

Claim C9 says extraction is a function of the file content alone and
that the core performs no network retrieval.  For PDB files this holds
(`parsePdbFile` takes no oracle), but `MRCParser.parse_file` itself
calls `_get_emdb_info`, which opens an HTTPS connection to the EMDB API
whenever an accession code was found in the file; the version and
details of the resulting location come from that response.  With the
service modelled as an oracle argument, two different service responses
give two different extraction results for the same file. -/

/-- Counterexample to C9 as stated: MRC extraction is not a function of
the file content alone — the same file under two lookup-service
responses yields structurally different datasets, because the core
itself performs the lookup when a code is embedded. -/
theorem extraction_network_cex :
    ¬ (∀ (net net' : Bytes → Str × Str) (fn : Str) (f : Bytes),
        mrcParseFile net fn f = mrcParseFile net' fn f) := by
  intro h
  have h2 := congrArg (Except.map Dataset.loc) (h netOne netTwo (cs "x.mrc") c9file)
  exact absurd h2 (by decide)

/-- C9 as amended: when no code is embedded, the MRC result depends on
the file alone (no retrieval is performed); when a code is embedded the
core itself retrieves version and details from the service, keyed by
exactly that code, and the result depends on the response. -/
theorem extraction_network_dependence :
    (∀ (net net' : Bytes → Str × Str) (fn : Str) (f : Bytes),
        mrcGetEmdb f = .ok none → mrcParseFile net fn f = mrcParseFile net' fn f) ∧
    (∀ (net : Bytes → Str × Str) (fn : Str) (f : Bytes) (code : Bytes),
        mrcGetEmdb f = .ok (some code) →
        mrcParseFile net fn f =
          .ok (EMDensityDataset (EMDBLocation (code.map Char.ofNat) (some (net code).1)
            (some (if (net code).2.isEmpty then cs "Electron microscopy density map"
                   else (net code).2))))) := by
  constructor
  · intro net net' fn f h
    simp [mrcParseFile, h]
  · intro net fn f code h
    simp [mrcParseFile, h]

/-- Witness for the amended C9: a code-free file gives the same result
under both services, and the `EMD-5` file yields the dataset built from
the service response for `EMD-5`. -/
theorem extraction_network_dependence_witness :
    mrcParseFile netOne (cs "x.mrc") mrcW224 = mrcParseFile netTwo (cs "x.mrc") mrcW224 ∧
    mrcParseFile netOne (cs "x.mrc") c9file =
      .ok (EMDensityDataset (EMDBLocation ((strBytes "EMD-5").map Char.ofNat)
        (some (netOne (strBytes "EMD-5")).1)
        (some (if (netOne (strBytes "EMD-5")).2.isEmpty
               then cs "Electron microscopy density map"
               else (netOne (strBytes "EMD-5")).2)))) :=
  ⟨extraction_network_dependence.1 netOne netTwo (cs "x.mrc") mrcW224 (by decide),
   extraction_network_dependence.2 netOne (cs "x.mrc") c9file (strBytes "EMD-5") (by decide)⟩

/-! ## Prefix dispatch helpers -/

/-- A prefix test is a statement about `List.take`. -/
theorem leadsWith_iff_take : ∀ (p l : Str), leadsWith p l = true ↔ l.take p.length = p
  | [], l => by simp [leadsWith]
  | pc :: ps, [] => by simp [leadsWith]
  | pc :: ps, c :: t => by
    simp only [leadsWith, List.length_cons, List.take_succ_cons, Bool.and_eq_true,
      decide_eq_true_eq, List.cons.injEq, leadsWith_iff_take ps t]
    exact and_congr_left (fun _ => eq_comm)

/-- Two literal prefixes that disagree on their common length cannot
both match the same line (used to walk the first-match-wins dispatch of
`parse_file`). -/
theorem leadsWith_excl (p q l : Str) (h : leadsWith p l = true)
    (hne : p.take q.length ≠ q.take p.length) : leadsWith q l = false := by
  by_contra hq
  rw [Bool.not_eq_false] at hq
  apply hne
  calc p.take q.length = (l.take p.length).take q.length := by
        rw [(leadsWith_iff_take p l).1 h]
    _ = l.take (min q.length p.length) := by rw [List.take_take]
    _ = (l.take q.length).take p.length := by rw [List.take_take, Nat.min_comm]
    _ = q.take p.length := by rw [(leadsWith_iff_take q l).1 hq]

/-- The `software` field of a result produced by the shared
comparative-model handling is the hint list passed in. -/
theorem handleComparative_software (lines : List Str) (fn : Str) (lf : Location)
    (sw : List (Str × SWVal)) (r : PDBResult)
    (h : handleComparative lines fn lf sw = .ok r) : r.software = sw := by
  unfold handleComparative at h
  cases hg : getTemplates lines fn with
  | error e => rw [hg] at h; exact absurd h (by simp)
  | ok tsp =>
    rw [hg] at h
    have := Except.ok.inj h
    subst this
    rfl

/-! ## C5 — the official-record scenario

Claim C5 replays the spec's scenario: a `HEADER` first line followed by
a `TITLE` line.  The spec's scenario line is 65 characters long and
carries `1ABC` at columns 61–64, but `_parse_official_pdb` reads the
accession from the fixed columns `[62:66]`; on this exact line that
substring is `ABC`, not `1ABC`.  The details and the empty parent list
are as claimed. -/

/-- Counterexample to C5 as stated: on the scenario input the recovered
accession is the fixed-column substring `ABC`, which differs from the
claimed `1ABC`. -/
theorem official_header_scenario_cex :
    (parsePdbFile c5lines (cs "x.pdb")).map (fun r => r.dataset.loc.accession) =
      .ok (some (cs "ABC")) ∧
    (cs "ABC" : Str) ≠ cs "1ABC" :=
  ⟨by decide, by decide⟩

/-- C5 as amended: on the scenario input the dataset is an
experimental-structure dataset whose location has the case-preserved
fixed-column accession `ABC`, details `A SAMPLE`, and no parents. -/
theorem official_header_scenario :
    (parsePdbFile c5lines (cs "x.pdb")).map
      (fun r => (r.dataset.dtype, r.dataset.loc.accession, r.dataset.loc.details,
                 r.dataset.parents.length, r.templates.length)) =
      .ok (DataType.experimental, some (cs "ABC"), some (cs "A SAMPLE"), 0, 0) := by
  decide

/-! ## C6 — the details invariant

Claim C6: every Location's `details` is `None` or non-empty, in
particular for the local file of the derived-from extractors even with
no title lines.  The official path normalizes empty title text to
`None` (`details if details else None`), but `_parse_derived_from_pdb`
and `_parse_derived_from_model` assign `_parse_details(fh)` directly,
which is the empty string when the header has no `TITLE` records. -/

/-- Counterexample to C6 as stated: with no title lines the
derived-from-database extractor stores the empty string — neither
`None` nor non-empty — as the local file's details. -/
theorem details_invariant_cex :
    (parsePdbFile c6lines (cs "x.pdb")).map (fun r => r.dataset.loc.details) =
      .ok (some []) ∧
    detailsOkB (some ([] : Str)) = false :=
  ⟨by decide, by decide⟩

/-- The official record path always normalizes: its details value is
`none` or non-empty. -/
theorem parsePdbRecords_detailsOk (first : Str) (rest : List Str) :
    detailsOkB (parsePdbRecords first rest).2.1 = true := by
  simp only [parsePdbRecords]
  cases h : (pdbRecordsAux rest [] []).1.isEmpty <;> simp [h, detailsOkB]

/-- C6 as amended: the invariant holds on the official path (empty
title text becomes `None`), while both derived-from extractors —
derived-from-database-entry and derived-from-comparative-model — store
exactly the concatenated title text as the local file's details: the
empty string when no titles are present. -/
theorem details_invariant_paths :
    (∀ (lines : List Str) (fn : Str) (r : PDBResult),
        leadsWith (cs "HEADER") (firstLineOf lines) = true →
        parsePdbFile lines fn = .ok r →
        detailsOkB r.dataset.loc.details = true) ∧
    (∀ (lines : List Str) (fn : Str) (r : PDBResult),
        leadsWith (cs "EXPDTA    DERIVED FROM PDB:") (firstLineOf lines) = true →
        parsePdbFile lines fn = .ok r →
        r.dataset.loc.details = some (parseDetails (lines.drop 1))) ∧
    (∀ (lines : List Str) (fn : Str) (r : PDBResult),
        leadsWith (cs "EXPDTA    DERIVED FROM COMPARATIVE MODEL, DOI:")
          (firstLineOf lines) = true →
        parsePdbFile lines fn = .ok r →
        r.dataset.loc.details = some (parseDetails (lines.drop 1))) := by
  refine ⟨?_, ?_, ?_⟩
  · intro lines fn r hh hp
    simp only [parsePdbFile, hh, if_true] at hp
    have := Except.ok.inj hp
    subst this
    exact parsePdbRecords_detailsOk (firstLineOf lines) (lines.drop 1)
  · intro lines fn r hd hp
    have hh : leadsWith (cs "HEADER") (firstLineOf lines) = false :=
      leadsWith_excl _ _ _ hd (by decide)
    simp only [parsePdbFile, hh, hd, if_true, Bool.false_eq_true, if_false] at hp
    have := Except.ok.inj hp
    subst this
    rfl
  · intro lines fn r hd hp
    have hh : leadsWith (cs "HEADER") (firstLineOf lines) = false :=
      leadsWith_excl _ _ _ hd (by decide)
    have hdb : leadsWith (cs "EXPDTA    DERIVED FROM PDB:") (firstLineOf lines) = false :=
      leadsWith_excl _ _ _ hd (by decide)
    simp only [parsePdbFile, hh, hdb, hd, if_true, Bool.false_eq_true, if_false] at hp
    have := Except.ok.inj hp
    subst this
    rfl

/-- Witness for the amended C6 at concrete scenario inputs: the
official path, and both derived-from dialects with no title lines. -/
theorem details_invariant_paths_witness :
    (∃ r, parsePdbFile c5lines (cs "x.pdb") = .ok r ∧
      detailsOkB r.dataset.loc.details = true) ∧
    (∃ r, parsePdbFile c6lines (cs "x.pdb") = .ok r ∧
      r.dataset.loc.details = some (parseDetails (c6lines.drop 1))) ∧
    (∃ r, parsePdbFile c6doilines (cs "x.pdb") = .ok r ∧
      r.dataset.loc.details = some (parseDetails (c6doilines.drop 1))) :=
  ⟨⟨_, rfl, details_invariant_paths.1 c5lines (cs "x.pdb") _ (by decide) rfl⟩,
   ⟨_, rfl, details_invariant_paths.2.1 c6lines (cs "x.pdb") _ (by decide) rfl⟩,
   ⟨_, rfl, details_invariant_paths.2.2 c6doilines (cs "x.pdb") _ (by decide) rfl⟩⟩

/-! ## C7 — software hints

Claim C7 says the MODELLER dialect maps the tool name to its version
string.  The code stores `first_line[38:].split(' ', 1)` — a Python
list of one or two pieces, the first being the version token (with the
line terminator still attached when no date field follows) — not a
version string.  The Phyre2 half (unknown marker) holds. -/

/-- Counterexample to C7 as stated: the MODELLER hint value is the
split list (here a singleton keeping the newline), and no string value
equals it. -/
theorem software_hint_cex :
    (parsePdbFile c7mod (cs "x.pdb")).map (fun r => r.software) =
      .ok [(cs "modeller", SWVal.pyList [cs "9.1\n"])] ∧
    ∀ s : Str, SWVal.pyList [cs "9.1\n"] ≠ SWVal.pyStr s :=
  ⟨by decide, fun s h => SWVal.noConfusion h⟩

/-- C7 as amended: the MODELLER dialect maps `modeller` to the list
obtained by splitting the first line's text after column 38 at the
first space; the Phyre2 dialect maps `phyre2` to the unknown marker. -/
theorem software_hint_values :
    (∀ (lines : List Str) (fn : Str) (r : PDBResult),
        leadsWith (cs "EXPDTA    THEORETICAL MODEL, MODELLER") (firstLineOf lines) = true →
        parsePdbFile lines fn = .ok r →
        r.software = [(cs "modeller",
          SWVal.pyList (pySplit1 ((firstLineOf lines).drop 38)))]) ∧
    (∀ (lines : List Str) (fn : Str) (r : PDBResult),
        leadsWith (cs "REMARK  99  Chain ID :") (firstLineOf lines) = true →
        parsePdbFile lines fn = .ok r →
        r.software = [(cs "phyre2", cifUnknown)]) := by
  constructor
  · intro lines fn r hm hp
    have h1 : leadsWith (cs "HEADER") (firstLineOf lines) = false :=
      leadsWith_excl _ _ _ hm (by decide)
    have h2 : leadsWith (cs "EXPDTA    DERIVED FROM PDB:") (firstLineOf lines) = false :=
      leadsWith_excl _ _ _ hm (by decide)
    have h3 : leadsWith (cs "EXPDTA    DERIVED FROM COMPARATIVE MODEL, DOI:")
        (firstLineOf lines) = false :=
      leadsWith_excl _ _ _ hm (by decide)
    simp only [parsePdbFile, h1, h2, h3, hm, if_true, Bool.false_eq_true, if_false] at hp
    exact handleComparative_software _ _ _ _ _ hp
  · intro lines fn r hm hp
    have h1 : leadsWith (cs "HEADER") (firstLineOf lines) = false :=
      leadsWith_excl _ _ _ hm (by decide)
    have h2 : leadsWith (cs "EXPDTA    DERIVED FROM PDB:") (firstLineOf lines) = false :=
      leadsWith_excl _ _ _ hm (by decide)
    have h3 : leadsWith (cs "EXPDTA    DERIVED FROM COMPARATIVE MODEL, DOI:")
        (firstLineOf lines) = false :=
      leadsWith_excl _ _ _ hm (by decide)
    have h4 : leadsWith (cs "EXPDTA    THEORETICAL MODEL, MODELLER")
        (firstLineOf lines) = false :=
      leadsWith_excl _ _ _ hm (by decide)
    simp only [parsePdbFile, h1, h2, h3, h4, hm, if_true, Bool.false_eq_true, if_false] at hp
    exact handleComparative_software _ _ _ _ _ hp

/-- Witness for the amended C7 at concrete MODELLER and Phyre2 files. -/
theorem software_hint_values_witness :
    (∃ r, parsePdbFile c7mod (cs "x.pdb") = .ok r ∧
      r.software = [(cs "modeller",
        SWVal.pyList (pySplit1 ((firstLineOf c7mod).drop 38)))]) ∧
    (∃ r, parsePdbFile c7phy (cs "x.pdb") = .ok r ∧
      r.software = [(cs "phyre2", cifUnknown)]) :=
  ⟨⟨_, rfl, software_hint_values.1 c7mod (cs "x.pdb") _ (by decide) rfl⟩,
   ⟨_, rfl, software_hint_values.2 c7phy (cs "x.pdb") _ (by decide) rfl⟩⟩

/-! ## Template-handling helper lemmas -/

/-- An `Except` value that reports `isOk` carries an `ok` payload. -/
theorem isOk_exists {β : Type} {e : Except PyErr β} (h : e.isOk = true) :
    ∃ b, e = .ok b := by
  cases e with
  | error e => simp [Except.isOk, Except.toBool] at h
  | ok b => exact ⟨b, rfl⟩

/-- A shape-matching code resolves to the upper-cased database record
regardless of the table. -/
theorem resolve_shape (pm : List (Str × Str)) (code : Str)
    (hs : shapeMatch code = true) :
    resolveTemplateCode pm code =
      .ok (PDBLocation ((code.take 4).map Char.toUpper) none none) := by
  simp [resolveTemplateCode, hs]

/-- A non-shape code present in the table resolves to the stored
file path. -/
theorem resolve_file (pm : List (Str × Str)) (code p : Str)
    (hs : shapeMatch code = false) (hd : dictGet pm code = some p) :
    resolveTemplateCode pm code =
      .ok (InputFileLocation p none (some (cs "Template for comparative modeling"))) := by
  simp [resolveTemplateCode, hs, hd]

/-- A non-shape code absent from the table raises `KeyError`. -/
theorem resolve_keyerror (pm : List (Str × Str)) (code : Str)
    (hs : shapeMatch code = false) (hd : dictGet pm code = none) :
    resolveTemplateCode pm code = .error (PyErr.keyError code) := by
  simp [resolveTemplateCode, hs, hd]

/-- A statistics match with convertible numeric fields and a resolvable
code is handled successfully. -/
theorem handleTemplate_ok (pm : List (Str × Str)) (aln : Option Location)
    (m : TmpMatch) (hn : statNumOk m = true) (hr : resolvable pm m = true) :
    ∃ t, handleTemplate pm aln m = .ok t := by
  simp only [statNumOk, Bool.and_eq_true] at hn
  obtain ⟨⟨⟨⟨h2, h4⟩, h5⟩, h6⟩, h7⟩ := hn
  obtain ⟨v2, hv2⟩ := isOk_exists h2
  obtain ⟨v4, hv4⟩ := isOk_exists h4
  obtain ⟨v5, hv5⟩ := isOk_exists h5
  obtain ⟨v6, hv6⟩ := isOk_exists h6
  simp only [handleTemplate, hv2, hv4, hv5, hv6, pyFloat, h7, if_true]
  by_cases hs : shapeMatch m.g1 = true
  · simp only [resolve_shape pm m.g1 hs]
    exact ⟨_, rfl⟩
  · simp only [resolvable, Bool.or_eq_true] at hr
    rcases hr with hr | hr
    · exact absurd hr hs
    · obtain ⟨p, hp⟩ := Option.isSome_iff_exists.1 hr
      rw [Bool.not_eq_true] at hs
      simp only [resolve_file pm m.g1 p hs hp]
      exact ⟨_, rfl⟩

/-- A statistics match with convertible numeric fields whose code
neither matches the shape nor appears in the table raises `KeyError`
on exactly that code. -/
theorem handleTemplate_keyerror (pm : List (Str × Str)) (aln : Option Location)
    (m : TmpMatch) (hn : statNumOk m = true)
    (hs : shapeMatch m.g1 = false) (hd : dictGet pm m.g1 = none) :
    handleTemplate pm aln m = .error (PyErr.keyError m.g1) := by
  simp only [statNumOk, Bool.and_eq_true] at hn
  obtain ⟨⟨⟨⟨h2, h4⟩, h5⟩, h6⟩, h7⟩ := hn
  obtain ⟨v2, hv2⟩ := isOk_exists h2
  obtain ⟨v4, hv4⟩ := isOk_exists h4
  obtain ⟨v5, hv5⟩ := isOk_exists h5
  obtain ⟨v6, hv6⟩ := isOk_exists h6
  simp only [handleTemplate, hv2, hv4, hv5, hv6, pyFloat, h7, if_true,
    resolve_keyerror pm m.g1 hs hd]

/-- The dataset of a successfully handled template is built from the
Location produced by the code-resolution step. -/
theorem handleTemplate_loc (pm : List (Str × Str)) (aln : Option Location)
    (m : TmpMatch) (t : Template)
    (hok : handleTemplate pm aln m = .ok t) :
    ∃ l, t.dataset = PDBDataset l ∧ resolveTemplateCode pm m.g1 = .ok l := by
  unfold handleTemplate at hok
  cases h2 : pyInt m.g2 with
  | error e => simp [h2] at hok
  | ok v2 =>
    simp only [h2] at hok
    cases h4 : pyInt m.g4 with
    | error e => simp [h4] at hok
    | ok v4 =>
      simp only [h4] at hok
      cases h5 : pyInt m.g5 with
      | error e => simp [h5] at hok
      | ok v5 =>
        simp only [h5] at hok
        cases h6 : pyInt m.g6 with
        | error e => simp [h6] at hok
        | ok v6 =>
          simp only [h6] at hok
          cases h7 : pyFloat m.g7 with
          | error e => simp [h7] at hok
          | ok idv =>
            simp only [h7] at hok
            cases hl : resolveTemplateCode pm m.g1 with
            | error e => simp [hl] at hok
            | ok l =>
              simp only [hl] at hok
              have := Except.ok.inj hok
              subst this
              exact ⟨l, rfl, rfl⟩

/-- The list comprehension succeeds elementwise: if every element is
handled, the result has the same length. -/
theorem mapE_ok_all {α β : Type} (f : α → Except PyErr β) :
    ∀ l : List α, (∀ a ∈ l, ∃ b, f a = .ok b) →
      ∃ bs, mapE f l = .ok bs ∧ bs.length = l.length
  | [], _ => ⟨[], rfl, rfl⟩
  | a :: as, h => by
    obtain ⟨b, hb⟩ := h a (List.mem_cons_self a as)
    obtain ⟨bs, hbs, hlen⟩ :=
      mapE_ok_all f as (fun x hx => h x (List.mem_cons_of_mem a hx))
    exact ⟨b :: bs, by simp [mapE, hb, hbs], by simp [hlen]⟩

/-- When every match has convertible numerics and some match is
unresolvable, the comprehension raises `KeyError` (on the first
unresolvable code). -/
theorem mapE_keyerror (pm : List (Str × Str)) (aln : Option Location) :
    ∀ l : List TmpMatch, (∀ m ∈ l, statNumOk m = true) →
      (∃ m ∈ l, shapeMatch m.g1 = false ∧ dictGet pm m.g1 = none) →
      ∃ c, mapE (handleTemplate pm aln) l = .error (PyErr.keyError c)
  | [], _, hbad => absurd hbad (by simp)
  | a :: as, hn, hbad => by
    by_cases ha : shapeMatch a.g1 = false ∧ dictGet pm a.g1 = none
    · refine ⟨a.g1, ?_⟩
      have h := handleTemplate_keyerror pm aln a
        (hn a (List.mem_cons_self a as)) ha.1 ha.2
      simp [mapE, h]
    · have hres : resolvable pm a = true := by
        simp only [resolvable, Bool.or_eq_true]
        by_cases hs : shapeMatch a.g1 = true
        · exact Or.inl hs
        · right
          rw [Option.isSome_iff_ne_none]
          intro hd
          exact ha ⟨Bool.not_eq_true _ ▸ hs, hd⟩
      obtain ⟨b, hb⟩ := handleTemplate_ok pm aln a
        (hn a (List.mem_cons_self a as)) hres
      have hbad2 : ∃ m ∈ as, shapeMatch m.g1 = false ∧ dictGet pm m.g1 = none := by
        obtain ⟨m, hm, hmm⟩ := hbad
        rcases List.mem_cons.1 hm with rfl | hm2
        · exact absurd hmm ha
        · exact ⟨m, hm2, hmm⟩
      obtain ⟨c, hc⟩ := mapE_keyerror pm aln as
        (fun x hx => hn x (List.mem_cons_of_mem a hx)) hbad2
      exact ⟨c, by simp [mapE, hb, hc]⟩

/-- Freshly stored dict entries are found by lookup. -/
theorem dictGet_dictSet (d : List (Str × Str)) (k v : Str) :
    dictGet (dictSet d k v) k = some v := by
  induction d with
  | nil => simp [dictSet, dictGet]
  | cons a rest ih =>
    obtain ⟨k1, v1⟩ := a
    by_cases h : k1 = k
    · simp [dictSet, dictGet, h]
    · simp [dictSet, dictGet, h, ih]

/-- The template sort key order is transitive. -/
theorem tmplLe_trans : ∀ a b c : Template, tmplLe a b → tmplLe b c → tmplLe a c := by
  intro a b c hab hbc
  simp only [tmplLe, tupLe, decide_eq_true_eq] at hab hbc ⊢
  omega

/-- The template sort key order is total. -/
theorem tmplLe_total : ∀ a b : Template, tmplLe a b || tmplLe b a := by
  intro a b
  simp only [tmplLe, tupLe, Bool.or_eq_true, decide_eq_true_eq]
  omega

/-! ## C2 — template recovery: count and order

Claim C2: with N statistics records, all of whose codes resolve,
template recovery returns exactly N templates sorted ascending by
`target_range` (`seq_id_range` in the source) under tuple comparison.
As stated the claim fails: a statistics record whose code resolves but
whose captured range text is not numeric aborts the whole extraction
with a `ValueError` from `int()` before the code is even looked at, so
no template list is produced.  The claim holds once the numeric fields
are also required to convert. -/

/-- Counterexample to C2 as stated: one statistics record, its code
resolves (canonical shape), yet recovery raises `ValueError` instead of
returning one template. -/
theorem template_recovery_count_cex :
    (scanHeader (cs "m.pdb") c2cexlines ⟨[], none, []⟩).stats.length = 1 ∧
    (∀ m ∈ (scanHeader (cs "m.pdb") c2cexlines ⟨[], none, []⟩).stats,
      shapeMatch m.g1 = true) ∧
    errOf (getTemplates c2cexlines (cs "m.pdb")) = some PyErr.valueError :=
  ⟨by decide, by decide, by decide⟩

/-- C2 as amended: with N statistics records whose codes resolve and
whose numeric fields convert, recovery returns exactly N templates,
consecutive `seq_id_range` values non-decreasing under tuple
comparison (and hence the empty list for N = 0). -/
theorem template_recovery_count_sorted (lines : List Str) (pdbname : Str) (N : Nat)
    (hN : (scanHeader pdbname lines ⟨[], none, []⟩).stats.length = N)
    (hall : ∀ m ∈ (scanHeader pdbname lines ⟨[], none, []⟩).stats,
        statNumOk m = true ∧
        resolvable (scanHeader pdbname lines ⟨[], none, []⟩).pathMap m = true) :
    ∃ ts parents, getTemplates lines pdbname = .ok (ts, parents) ∧
      ts.length = N ∧
      ∀ (i : Nat) (h : i + 1 < ts.length),
        tupLe (ts.get ⟨i, Nat.lt_of_succ_lt h⟩).seq_id_range
          (ts.get ⟨i + 1, h⟩).seq_id_range = true := by
  obtain ⟨bs, hbs, hlen⟩ :=
    mapE_ok_all (handleTemplate (scanHeader pdbname lines ⟨[], none, []⟩).pathMap
        (scanHeader pdbname lines ⟨[], none, []⟩).alnfile)
      (scanHeader pdbname lines ⟨[], none, []⟩).stats
      (fun m hm => handleTemplate_ok _ _ m (hall m hm).1 (hall m hm).2)
  refine ⟨bs.mergeSort tmplLe, bs.map (fun t => t.dataset), ?_, ?_, ?_⟩
  · simp [getTemplates, hbs]
  · rw [List.length_mergeSort, hlen, hN]
  · have hsorted := @List.sorted_mergeSort Template tmplLe
      (fun a b c => tmplLe_trans a b c) (fun a b => tmplLe_total a b) bs
    intro i h
    have hp := List.pairwise_iff_getElem.1 hsorted i (i + 1)
      (Nat.lt_of_succ_lt h) h (Nat.lt_succ_self i)
    simpa [tmplLe, List.get_eq_getElem] using hp

/-- Witness for the amended C2: at the two-record file the hypotheses
hold and recovery returns two templates in sorted order. -/
theorem template_recovery_count_sorted_witness :
    (scanHeader (cs "m.pdb") c2wlines ⟨[], none, []⟩).stats.length = 2 ∧
    (∃ ts parents, getTemplates c2wlines (cs "m.pdb") = .ok (ts, parents) ∧
      ts.length = 2 ∧
      ∀ (i : Nat) (h : i + 1 < ts.length),
        tupLe (ts.get ⟨i, Nat.lt_of_succ_lt h⟩).seq_id_range
          (ts.get ⟨i + 1, h⟩).seq_id_range = true) :=
  ⟨by decide,
   template_recovery_count_sorted c2wlines (cs "m.pdb") 2 (by decide) (by decide)⟩

/-! ## C3 — unresolvable template codes

Claim C3: a statistics record whose code neither matches the shape nor
appears in the table makes resolution raise a lookup error that fails
the whole extraction call.  As stated this fails in one corner: the
`int()` conversions of `_handle_template` run before the lookup, so a
record whose code is unresolvable but whose range text is non-numeric
aborts with `ValueError`, not a lookup error (the call still fails and
the template is still not dropped).  With convertible numeric fields
the lookup `KeyError` is raised and propagates out of `parse_file`. -/

/-- Counterexample to C3 as stated: the record's code is unresolvable,
but extraction fails with `ValueError` — not a lookup error — because
the numeric conversion runs first. -/
theorem unresolved_template_cex :
    (∀ m ∈ (scanHeader (cs "m.pdb") c3cexlines ⟨[], none, []⟩).stats,
      shapeMatch m.g1 = false ∧
      dictGet (scanHeader (cs "m.pdb") c3cexlines ⟨[], none, []⟩).pathMap m.g1 = none) ∧
    (scanHeader (cs "m.pdb") c3cexlines ⟨[], none, []⟩).stats.length = 1 ∧
    errOf (getTemplates c3cexlines (cs "m.pdb")) = some PyErr.valueError ∧
    (∀ c : Str, errOf (getTemplates c3cexlines (cs "m.pdb")) ≠ some (PyErr.keyError c)) := by
  refine ⟨by decide, by decide, by decide, ?_⟩
  intro c h
  have h1 : errOf (getTemplates c3cexlines (cs "m.pdb")) = some PyErr.valueError := by
    decide
  rw [h1] at h
  exact PyErr.noConfusion (Option.some.inj h)

/-- C3 as amended: when the statistics records' numeric fields convert
and some record's code is unresolvable, template recovery raises
`KeyError`, and the whole `parse_file` call fails with that `KeyError`
for every comparative-model dialect (the template is never silently
dropped). -/
theorem unresolved_template_keyerror (lines : List Str) (pdbname : Str)
    (hnum : ∀ m ∈ (scanHeader pdbname lines ⟨[], none, []⟩).stats, statNumOk m = true)
    (hbad : ∃ m ∈ (scanHeader pdbname lines ⟨[], none, []⟩).stats,
        shapeMatch m.g1 = false ∧
        dictGet (scanHeader pdbname lines ⟨[], none, []⟩).pathMap m.g1 = none) :
    (∃ c, getTemplates lines pdbname = .error (PyErr.keyError c)) ∧
    (leadsWith (cs "HEADER") (firstLineOf lines) = false →
     leadsWith (cs "EXPDTA    DERIVED FROM PDB:") (firstLineOf lines) = false →
     leadsWith (cs "EXPDTA    DERIVED FROM COMPARATIVE MODEL, DOI:")
       (firstLineOf lines) = false →
     ∃ c, parsePdbFile lines pdbname = .error (PyErr.keyError c)) := by
  obtain ⟨c, hc⟩ := mapE_keyerror
    (scanHeader pdbname lines ⟨[], none, []⟩).pathMap
    (scanHeader pdbname lines ⟨[], none, []⟩).alnfile
    (scanHeader pdbname lines ⟨[], none, []⟩).stats hnum hbad
  have hget : getTemplates lines pdbname = .error (PyErr.keyError c) := by
    simp [getTemplates, hc]
  refine ⟨⟨c, hget⟩, ?_⟩
  intro h1 h2 h3
  refine ⟨c, ?_⟩
  simp only [parsePdbFile, h1, h2, h3, Bool.false_eq_true, if_false]
  by_cases h4 : leadsWith (cs "EXPDTA    THEORETICAL MODEL, MODELLER")
      (firstLineOf lines) = true
  · simp [h4, handleComparative, hget]
  · by_cases h5 : leadsWith (cs "REMARK  99  Chain ID :") (firstLineOf lines) = true
    · simp [h4, h5, handleComparative, hget]
    · simp [h4, h5, handleComparative, hget]

/-- Witness for the amended C3: one unresolvable record with numeric
fields; recovery and the whole `parse_file` call fail with a
`KeyError`. -/
theorem unresolved_template_keyerror_witness :
    (∃ c, getTemplates
      [cs "REMARK   6 TEMPLATE: tmplX 1:A - 20:A MODELS 5:A - 15:A AT 45.0%\n"]
      (cs "m.pdb") = .error (PyErr.keyError c)) ∧
    (∃ c, parsePdbFile
      [cs "REMARK   6 TEMPLATE: tmplX 1:A - 20:A MODELS 5:A - 15:A AT 45.0%\n"]
      (cs "m.pdb") = .error (PyErr.keyError c)) :=
  have h := unresolved_template_keyerror
    [cs "REMARK   6 TEMPLATE: tmplX 1:A - 20:A MODELS 5:A - 15:A AT 45.0%\n"]
    (cs "m.pdb") (by decide) (by decide)
  ⟨h.1, h.2 (by decide) (by decide) (by decide)⟩

/-! ## C8 — template code resolution

Claim C8: shape-matching codes resolve to a database-record dataset
with the upper-cased 4-character accession and never consult the
search-path table even when present in it; other codes present in the
table resolve to a file location whose path is the table's stored
relative-path resolution. -/

/-- C8: (1) for a shape-matching code the handling is independent of
the table; (2) its dataset is the upper-cased PDB database record,
kind experimental; (3) a non-shape code found in the table yields the
stored file path; (4) a `TEMPLATE PATH` record stores the relative-path
resolution of its recorded path under its code. -/
theorem template_code_resolution :
    (∀ (pm pm' : List (Str × Str)) (aln : Option Location) (m : TmpMatch),
        shapeMatch m.g1 = true →
        handleTemplate pm aln m = handleTemplate pm' aln m) ∧
    (∀ (pm : List (Str × Str)) (aln : Option Location) (m : TmpMatch) (t : Template),
        shapeMatch m.g1 = true → handleTemplate pm aln m = .ok t →
        t.dataset.loc = PDBLocation ((m.g1.take 4).map Char.toUpper) none none ∧
        t.dataset.dtype = DataType.experimental) ∧
    (∀ (pm : List (Str × Str)) (aln : Option Location) (m : TmpMatch)
        (t : Template) (p : Str),
        shapeMatch m.g1 = false → dictGet pm m.g1 = some p →
        handleTemplate pm aln m = .ok t →
        t.dataset.loc =
          InputFileLocation p none (some (cs "Template for comparative modeling"))) ∧
    (∀ (st : ScanState) (pdbname line c p : Str),
        matchTmpPath line = some (c, p) →
        dictGet (stepLine pdbname st line).pathMap c =
          some (getRelativePath pdbname p)) := by
  refine ⟨?_, ?_, ?_, ?_⟩
  · intro pm pm' aln m hs
    simp only [handleTemplate, resolve_shape pm m.g1 hs, resolve_shape pm' m.g1 hs]
  · intro pm aln m t hs hok
    obtain ⟨l, hds, hl⟩ := handleTemplate_loc pm aln m t hok
    rw [resolve_shape pm m.g1 hs] at hl
    have := Except.ok.inj hl
    subst this
    rw [hds]
    exact ⟨rfl, rfl⟩
  · intro pm aln m t p hs hd hok
    obtain ⟨l, hds, hl⟩ := handleTemplate_loc pm aln m t hok
    rw [resolve_file pm m.g1 p hs hd] at hl
    have := Except.ok.inj hl
    subst this
    rw [hds]
    rfl
  · intro st pdbname line c p hm
    simp only [stepLine, hm]
    cases haln : matchAln line <;> cases htmp : matchTmp line <;>
      simp [haln, htmp, dictGet_dictSet]

/-- Witness for C8 at concrete matches and tables. -/
theorem template_code_resolution_witness :
    handleTemplate [] none m8a = handleTemplate pm8 none m8a ∧
    (∃ t, handleTemplate pm8 none m8a = .ok t ∧
      (t.dataset.loc = PDBLocation ((m8a.g1.take 4).map Char.toUpper) none none ∧
       t.dataset.dtype = DataType.experimental)) ∧
    (∃ t, handleTemplate pm8 none m8b = .ok t ∧
      t.dataset.loc =
        InputFileLocation (cs "dir/f.pdb") none
          (some (cs "Template for comparative modeling"))) ∧
    dictGet (stepLine (cs "dir/m.pdb") ⟨[], none, []⟩
        (cs "REMARK   6 TEMPLATE PATH codeX f.pdb\n")).pathMap (cs "codeX") =
      some (getRelativePath (cs "dir/m.pdb") (cs "f.pdb")) :=
  ⟨template_code_resolution.1 [] pm8 none m8a (by decide),
   ⟨_, rfl, template_code_resolution.2.1 pm8 none m8a _ (by decide) rfl⟩,
   ⟨_, rfl, template_code_resolution.2.2.1 pm8 none m8b _ (cs "dir/f.pdb")
      (by decide) (by decide) rfl⟩,
   template_code_resolution.2.2.2 ⟨[], none, []⟩ (cs "dir/m.pdb")
      (cs "REMARK   6 TEMPLATE PATH codeX f.pdb\n") (cs "codeX") (cs "f.pdb")
      (by decide)⟩

/-! ## C10 — official records scan to end of file

Claim C10: `_parse_pdb_records` (official path) has no early stop, so
`TITLE` and `HELIX` records after a coordinate record are still
collected, unlike `_parse_details` and the `_get_templates` header scan,
which stop at the first line starting with `ATOM`. -/

/-- The official record loop skips a coordinate line and keeps going. -/
theorem c10aux_records (a : Str) (ha : leadsWith (cs "ATOM") a = true) :
    ∀ (l1 l2 : List Str) (det : Str) (md : List PDBHelix),
      pdbRecordsAux (l1 ++ a :: l2) det md = pdbRecordsAux (l1 ++ l2) det md := by
  have hT : leadsWith (cs "TITLE") a = false := leadsWith_excl _ _ _ ha (by decide)
  have hH : leadsWith (cs "HELIX") a = false := leadsWith_excl _ _ _ ha (by decide)
  intro l1
  induction l1 with
  | nil => intro l2 det md; simp [pdbRecordsAux, hT, hH]
  | cons x xs ih =>
    intro l2 det md
    by_cases hx1 : leadsWith (cs "TITLE") x = true
    · simp [pdbRecordsAux, hx1, ih]
    · by_cases hx2 : leadsWith (cs "HELIX") x = true
      · simp [pdbRecordsAux, hx1, hx2, ih]
      · simp [pdbRecordsAux, hx1, hx2, ih]

/-- The details loop stops at the coordinate line. -/
theorem c10aux_details (a : Str) (ha : leadsWith (cs "ATOM") a = true) :
    ∀ (l1 l2 : List Str), (∀ x ∈ l1, leadsWith (cs "ATOM") x = false) →
      parseDetails (l1 ++ a :: l2) = parseDetails l1 := by
  have hT : leadsWith (cs "TITLE") a = false := leadsWith_excl _ _ _ ha (by decide)
  intro l1
  induction l1 with
  | nil => intro l2 _; simp [parseDetails, hT, ha]
  | cons x xs ih =>
    intro l2 h
    have hx := h x (List.mem_cons_self x xs)
    have hxs := fun y hy => h y (List.mem_cons_of_mem x hy)
    by_cases hx1 : leadsWith (cs "TITLE") x = true
    · simp [parseDetails, hx1, ih l2 hxs]
    · simp [parseDetails, hx1, hx, ih l2 hxs]

/-- The template header scan stops at the coordinate line. -/
theorem c10aux_scan (a pdbname : Str) (ha : leadsWith (cs "ATOM") a = true) :
    ∀ (l1 l2 : List Str) (st : ScanState),
      (∀ x ∈ l1, leadsWith (cs "ATOM") x = false) →
      scanHeader pdbname (l1 ++ a :: l2) st = scanHeader pdbname l1 st := by
  intro l1
  induction l1 with
  | nil => intro l2 st _; simp [scanHeader, ha]
  | cons x xs ih =>
    intro l2 st h
    have hx := h x (List.mem_cons_self x xs)
    have hxs := fun y hy => h y (List.mem_cons_of_mem x hy)
    simp [scanHeader, hx, ih l2 _ hxs]

/-- C10: past a coordinate line the official record loop behaves as if
the line were absent (later titles and helices are still collected),
while the details loop and the template header scan ignore everything
from that line on. -/
theorem official_scan_no_early_stop (l1 l2 : List Str) (a pdbname det : Str)
    (md : List PDBHelix) (st : ScanState)
    (ha : leadsWith (cs "ATOM") a = true)
    (h1 : ∀ x ∈ l1, leadsWith (cs "ATOM") x = false) :
    pdbRecordsAux (l1 ++ a :: l2) det md = pdbRecordsAux (l1 ++ l2) det md ∧
    parseDetails (l1 ++ a :: l2) = parseDetails l1 ∧
    scanHeader pdbname (l1 ++ a :: l2) st = scanHeader pdbname l1 st :=
  ⟨c10aux_records a ha l1 l2 det md, c10aux_details a ha l1 l2 h1,
   c10aux_scan a pdbname ha l1 l2 st h1⟩

/-- Witness for C10 at concrete lines, with the contrast made
concrete: the official loop concatenates both titles and keeps the
helix found after the coordinate record, the details loop keeps only
the first title. -/
theorem official_scan_no_early_stop_witness :
    (pdbRecordsAux (c10l1 ++ c10atom :: c10l2) [] [] =
      pdbRecordsAux (c10l1 ++ c10l2) [] [] ∧
     parseDetails (c10l1 ++ c10atom :: c10l2) = parseDetails c10l1 ∧
     scanHeader (cs "m.pdb") (c10l1 ++ c10atom :: c10l2) ⟨[], none, []⟩ =
      scanHeader (cs "m.pdb") c10l1 ⟨[], none, []⟩) ∧
    (pdbRecordsAux (c10l1 ++ c10atom :: c10l2) [] []).1 = cs "ONETWO" ∧
    (pdbRecordsAux (c10l1 ++ c10atom :: c10l2) [] []).2 =
      [⟨cs "HELIX  stuff\n"⟩] ∧
    parseDetails (c10l1 ++ c10atom :: c10l2) = cs "ONE" :=
  ⟨official_scan_no_early_stop c10l1 c10l2 c10atom (cs "m.pdb") [] [] ⟨[], none, []⟩
      (by decide) (by decide),
   by decide, by decide, by decide⟩

end IhmMeta
